import Mathlib

/-!
Verification of the call-admission rate limiter of `connection/base.py`
(class `AbstractConnection`): the call-field data model, the window-eviction
(refresh) algorithm, the admission test `isPossibleCall`, the reserve /
execute / settle envelopes `_makeCallSync` / `_makeCallAsync`, and the
configuration of tolerated ("catching") exceptions.

Modelling conventions of the shallow embedding:
* `datetime.datetime` values and `timedelta` durations are embedded as
  rationals (`ℚ`), measured in seconds; `datetime.min` is the sentinel
  `datetimeMin`.  Every timestamp produced by `datetime.now()` is strictly
  larger than `datetime.min`, which appears as a hypothesis
  (`datetimeMin < timestamp`) where a theorem needs it.
* Python numerics (`int`, `float`, `Decimal`) are embedded as `ℚ`; an
  argument position that may also receive a non-numeric value is embedded
  as `PyNum` with a `notNum` constructor.
* `queue.PriorityQueue` holding `(timestamp, weight)` pairs is embedded as
  a list kept sorted by the lexicographic order used by the queue;
  `get` is the head, `put` is ordered insertion.
* Raising an exception is embedded as `Except PyError`; a `KeyError` from
  a dict subscript on a missing key is `PyError.keyError`.
* The exception class hierarchy of `connection/errors.py` is flattened to
  kinds (`ExcKind`); matching of a raised exception against the catching
  tuple is membership of its kind among the class entries of the tuple.
-/

/-- Sentinel modelling `datetime.min` ("unset oldest timestamp"). -/
def datetimeMin : ℚ := 0

/-- Kinds of exceptions a wrapped operation may raise.  The subclass
hierarchy of `connection/errors.py` is flattened: `autoTradeConnectionError`
is the base connection-error kind (the default-tolerated one), `other n`
is any other exception kind. -/
inductive ExcKind : Type
  | autoTradeConnectionError
  | other (n : Nat)
deriving DecidableEq, Repr

/-- A Python value passed to the toleration add/remove operations: an
exception class object, an instance of an exception class, or any other
value.  Note `isinstance(x, Exception)` holds only for `excInstance`:
an exception *class* is an instance of `type`, not of `Exception`. -/
inductive PyObj : Type
  | excClass (k : ExcKind)
  | excInstance (k : ExcKind)
  | nonExc
deriving DecidableEq, Repr

/-- Errors raised by the limiter itself or re-raised from the wrapped
operation, mirroring `connection/errors.py` plus Python built-ins. -/
inductive PyError : Type
  | invalidError (msg : String)
  | invalidTypeError (msg : String)
  | callLimitExceeded (connectionName fieldName : String)
  | keyError (key : String)
  | raised (k : ExcKind)
deriving DecidableEq, Repr

/-- One call-limit record, the dict built by `addCallField`
(base.py lines 110-112) with keys `time_interval`, `max_weight`,
`current_weight`, `reserved_weight`, `oldest_timestamp`, `history`. -/
structure CallField : Type where
  time_interval : ℚ
  max_weight : ℚ
  current_weight : ℚ
  reserved_weight : ℚ
  oldest_timestamp : ℚ
  history : List (ℚ × ℚ)
deriving DecidableEq, Repr

/-- The datetime-valued entries of a call-limit record, as a dict lookup:
per `addCallField` (lines 110-112) the only datetime-valued key ever stored
is `"oldest_timestamp"`; any other key raises `KeyError`.  In particular the
key `"oldest_time"` read by `isPossibleCall` (line 149) is absent. -/
def CallField.timeItem (f : CallField) (key : String) : Except PyError ℚ :=
  if key = "oldest_timestamp" then .ok f.oldest_timestamp
  else .error (.keyError key)

/-- The state of an `AbstractConnection`: its name, the registry
`self.callLimits` (a dict embedded as an association list in insertion
order), and the catching set / tuple of tolerated exception entries. -/
structure AbstractConnection : Type where
  name : String
  callLimits : List (String × CallField)
  catching_set : List PyObj
  catching_tuple : List PyObj
deriving DecidableEq, Repr

/-- `_defaultCatching = frozenset([cerr.AutoTradeConnectionError])`
(base.py line 26): the default-tolerated entries, exception classes. -/
def defaultCatching : List PyObj := [.excClass .autoTradeConnectionError]

/-- A freshly constructed connection (`__init__` with no call limits). -/
def mkConnection (connectionName : String) : AbstractConnection :=
  { name := connectionName
    callLimits := []
    catching_set := defaultCatching
    catching_tuple := defaultCatching }

/-- Python truthiness of an optional string: `None` and `""` are falsy. -/
def pyFalsy : Option String → Bool
  | none => true
  | some s => s = ""

/-- Ordered insertion into the priority-queue list, by the lexicographic
order `PriorityQueue` uses on `(timestamp, weight)` pairs. -/
def pqPut : List (ℚ × ℚ) → (ℚ × ℚ) → List (ℚ × ℚ)
  | [], e => [e]
  | x :: rest, e =>
    if e.1 < x.1 ∨ (e.1 = x.1 ∧ e.2 ≤ x.2) then e :: x :: rest
    else x :: pqPut rest e

/-- The eviction loop of `refreshCallField` (base.py lines 123-130) on the
history of one record: `get` the oldest entry; if it is still inside the
window (`now - time_interval < timestamp`) `put` it back, record it as the
new oldest timestamp, and stop; otherwise subtract its weight from the
current weight and continue.  When the loop drains the history, the
`while`-`else` clause sets the oldest timestamp to `datetime.min`.
Returns the new `(history, current_weight, oldest_timestamp)`. -/
def refreshLoop (now interval : ℚ) :
    List (ℚ × ℚ) → ℚ → List (ℚ × ℚ) × ℚ × ℚ
  | [], cw => ([], cw, datetimeMin)
  | (ts, w) :: rest, cw =>
    if now - interval < ts then ((ts, w) :: rest, cw, ts)
    else refreshLoop now interval rest (cw - w)

/-- `refreshCallField` restricted to one record (the whole body of the
method acts on `thisCallLimit = self.callLimits[callFieldName]`). -/
def CallField.refresh (f : CallField) (now : ℚ) : CallField :=
  let r := refreshLoop now f.time_interval f.history f.current_weight
  { f with history := r.1, current_weight := r.2.1, oldest_timestamp := r.2.2 }

/-- `AbstractConnection.refreshCallField` (base.py lines 114-130): refresh
the record registered under `callFieldName`.  (On an unregistered name the
source's dict subscript would raise `KeyError`; the method is only invoked,
at line 150, on a name whose lookup has just succeeded.) -/
def AbstractConnection.refreshCallField (conn : AbstractConnection)
    (callFieldName : String) (now : ℚ) : AbstractConnection :=
  { conn with callLimits := conn.callLimits.map fun p =>
      if p.1 = callFieldName then (p.1, p.2.refresh now) else p }

/-- Sum of the weights of a history segment. -/
def sumWeights (l : List (ℚ × ℚ)) : ℚ := (l.map Prod.snd).sum

/-- Timestamp of the head entry of a history, `datetimeMin` when empty. -/
def headTimestamp : List (ℚ × ℚ) → ℚ
  | [] => datetimeMin
  | e :: _ => e.1

/-- A Python value in a numeric argument position: an `int` / `float` /
`Decimal` value, or a value of any other type. -/
inductive PyNum : Type
  | num (q : ℚ)
  | notNum
deriving DecidableEq, Repr

/-- `AbstractConnection.addCallField` (base.py lines 77-112).  Validity
checks in source order — empty name, duplicate name, then `maxWeight`
*before* `timeInterval`, each demanding a numeric strictly positive value —
then insertion of the fresh record at the end of the registry.  (The
leading non-string-name guard of line 94 is outside this embedding, where
the name is typed as a string.) -/
def AbstractConnection.addCallField (conn : AbstractConnection)
    (callFieldName : String) (timeInterval maxWeight : PyNum) :
    Except PyError AbstractConnection :=
  if callFieldName = "" then
    .error (.invalidError "Empty string cannot be call field name")
  else if (conn.callLimits.lookup callFieldName).isSome then
    .error (.invalidError "Already same callFieldName exist")
  else
    match maxWeight with
    | .notNum => .error (.invalidError "Given maxWeight argument is invalid")
    | .num mw =>
      if ¬ 0 < mw then .error (.invalidError "Given maxWeight argument is invalid")
      else
        match timeInterval with
        | .notNum => .error (.invalidError "Given timeInterval argument is invalid")
        | .num ti =>
          if ¬ 0 < ti then .error (.invalidError "Given timeInterval argument is invalid")
          else .ok { conn with callLimits := conn.callLimits ++
              [(callFieldName,
                { time_interval := ti, max_weight := mw, current_weight := 0,
                  reserved_weight := 0, oldest_timestamp := datetimeMin,
                  history := [] })] }

/-- `AbstractConnection.isPossibleCall` (base.py lines 132-151).  A falsy
field name is always possible; an unregistered name raises `InvalidError`;
zero weight is possible; negative weight raises `InvalidError`.  Otherwise
line 149 first subscripts the record with the key `"oldest_time"` — a key
`addCallField` never stores (it stores `"oldest_timestamp"`), so the
subscript raises `KeyError` before the staleness comparison, the refresh,
or the weight comparison of line 151 can run.  The intended remainder of
the line is still embedded under the (never-taken) `.ok` branch of that
lookup.  Returns the (possibly refreshed) connection and the verdict. -/
def AbstractConnection.isPossibleCall (conn : AbstractConnection)
    (callFieldName : Option String) (weight : ℚ) (now : ℚ) :
    Except PyError (AbstractConnection × Bool) :=
  if pyFalsy callFieldName then .ok (conn, true)
  else
    let name := callFieldName.getD ""
    match conn.callLimits.lookup name with
    | none => .error (.invalidError "Given callFieldName is not exist")
    | some thisCallLimit =>
      if weight = 0 then .ok (conn, true)
      else if weight < 0 then .error (.invalidError "Given weight is negative")
      else
        match thisCallLimit.timeItem "oldest_time" with
        | .error e => .error e
        | .ok oldestTime =>
          let conn1 :=
            if oldestTime ≠ datetimeMin ∧
                now - thisCallLimit.time_interval > thisCallLimit.oldest_timestamp
            then conn.refreshCallField name now else conn
          let f1 := (conn1.callLimits.lookup name).getD thisCallLimit
          .ok (conn1,
            f1.current_weight + f1.reserved_weight + weight ≤ f1.max_weight)

/-- Overwrite the record registered under `name` (mutation of the dict
entry aliased by `thisCallLimit` in the source). -/
def AbstractConnection.setField (conn : AbstractConnection) (name : String)
    (f : CallField) : AbstractConnection :=
  { conn with callLimits := conn.callLimits.map fun p =>
      if p.1 = name then (p.1, f) else p }

/-- Outcome of running the wrapped operation `method(self, ...)`:
a result value, or a raised exception of some kind. -/
inductive OpOutcome (α : Type) : Type
  | ok (a : α)
  | raise (k : ExcKind)
deriving DecidableEq, Repr

/-- Run the operation directly (the unguarded `return method(...)` path):
its result is returned, its exception propagates. -/
def runOp {α : Type} : OpOutcome α → Except PyError α
  | .ok a => .ok a
  | .raise k => .error (.raised k)

/-- Matching of a raised exception kind against the catching tuple, as the
`except self.__catching_tuple` clause does: the kind must be (a subclass
of, flattened here to: equal to) an exception-class entry of the tuple.
A non-class entry matches nothing. -/
def caughtBy (catching : List PyObj) (k : ExcKind) : Bool :=
  catching.any fun o =>
    match o with
    | .excClass c => c = k
    | _ => false

/-- Commit settlement (base.py lines 221-223 / 226-228): `put (now, weight)`
on the history, add the weight to `current_weight`, release the
reservation. -/
def commitField (f : CallField) (callWeight now : ℚ) : CallField :=
  { f with history := pqPut f.history (now, callWeight),
           current_weight := f.current_weight + callWeight,
           reserved_weight := f.reserved_weight - callWeight }

/-- The settlement stage of `_makeCallSync` (base.py lines 216-229), run
with the reservation already in place: a raised exception matched by the
catching tuple rolls the reservation back and re-raises; any other raise,
or success, commits and re-raises or returns. -/
def settleSync {α : Type} (catching : List PyObj) (f : CallField)
    (callWeight now : ℚ) (op : OpOutcome α) : CallField × Except PyError α :=
  match op with
  | .raise k =>
    if caughtBy catching k then
      ({ f with reserved_weight := f.reserved_weight - callWeight },
       .error (.raised k))
    else (commitField f callWeight now, .error (.raised k))
  | .ok a => (commitField f callWeight now, .ok a)

/-- What the caller of the async envelope receives: an awaited value
(the `return await method(...)` path of line 253), or a coroutine object
that was created but never awaited (the `result = method(...)` of
line 259, returned at line 272). -/
inductive AsyncValue (α : Type) : Type
  | value (a : α)
  | pendingCoroutine (op : OpOutcome α)
deriving DecidableEq, Repr

/-- The settlement stage of `_makeCallAsync` (base.py lines 259-272).
Line 259 reads `result = method(self, *args, **kwargs)` with no `await`:
calling a coroutine function only creates the coroutine object and cannot
raise the operation's exception, so the try-body never raises, both
`except` branches (lines 260-267) are dead, and control always reaches the
`else` branch, which commits the call and returns the un-awaited
coroutine. -/
def settleAsync {α : Type} (catching : List PyObj) (f : CallField)
    (callWeight now : ℚ) (op : OpOutcome α) :
    CallField × Except PyError (AsyncValue α) :=
  (commitField f callWeight now, .ok (.pendingCoroutine op))

/-- The synchronous call envelope `_makeCallSync` (base.py lines 187-230):
admission check (an exception from it propagates), immediate
`CallLimitExceededError` on denial, the unguarded fast path for a falsy
field name or zero weight, otherwise reserve then settle.  The parameters
are the kwargs `callFieldName` / `callWeight` (the missing-kwarg guards of
lines 199-200 are outside this embedding: the field name is passed as the
given kwarg value and a missing weight as `0`). -/
def makeCallSync {α : Type} (conn : AbstractConnection)
    (callFieldName : Option String) (callWeight : ℚ) (now : ℚ)
    (op : OpOutcome α) : AbstractConnection × Except PyError α :=
  match conn.isPossibleCall callFieldName callWeight now with
  | .error e => (conn, .error e)
  | .ok (conn1, possible) =>
    if possible = false then
      (conn1, .error (.callLimitExceeded conn1.name (callFieldName.getD "")))
    else if pyFalsy callFieldName ∨ callWeight = 0 then
      (conn1, runOp op)
    else
      let name := callFieldName.getD ""
      match conn1.callLimits.lookup name with
      | none => (conn1, .error (.keyError name))
      | some thisCallLimit =>
        let reserved :=
          { thisCallLimit with
              reserved_weight := thisCallLimit.reserved_weight + callWeight }
        let r := settleSync conn1.catching_tuple reserved callWeight now op
        (conn1.setField name r.1, r.2)

/-- The asynchronous call envelope `_makeCallAsync` (base.py lines
232-273): identical admission, denial and fast path (line 253 does await),
then reserve and the async settlement stage. -/
def makeCallAsync {α : Type} (conn : AbstractConnection)
    (callFieldName : Option String) (callWeight : ℚ) (now : ℚ)
    (op : OpOutcome α) : AbstractConnection × Except PyError (AsyncValue α) :=
  match conn.isPossibleCall callFieldName callWeight now with
  | .error e => (conn, .error e)
  | .ok (conn1, possible) =>
    if possible = false then
      (conn1, .error (.callLimitExceeded conn1.name (callFieldName.getD "")))
    else if pyFalsy callFieldName ∨ callWeight = 0 then
      (conn1, (runOp op).map .value)
    else
      let name := callFieldName.getD ""
      match conn1.callLimits.lookup name with
      | none => (conn1, .error (.keyError name))
      | some thisCallLimit =>
        let reserved :=
          { thisCallLimit with
              reserved_weight := thisCallLimit.reserved_weight + callWeight }
        let r := settleAsync conn1.catching_tuple reserved callWeight now op
        (conn1.setField name r.1, r.2)

/-- `AbstractConnection.addExceptionsForToleration` (base.py lines
156-168): for each argument, `isinstance(givenError, Exception)` must hold
— which rejects every exception *class*, since a class is an instance of
`type`, not of `Exception` — otherwise the catching tuple is re-synced
from the set and `InvalidError` is raised; an instance not already in the
set is added.  After the loop the tuple is re-synced from the set. -/
def AbstractConnection.addExceptionsForToleration (conn : AbstractConnection) :
    List PyObj → AbstractConnection × Except PyError Unit
  | [] => ({ conn with catching_tuple := conn.catching_set }, .ok ())
  | givenError :: rest =>
    match givenError with
    | .excInstance _ =>
      let conn1 :=
        if givenError ∈ conn.catching_set then conn
        else { conn with catching_set := conn.catching_set ++ [givenError] }
      conn1.addExceptionsForToleration rest
    | _ =>
      ({ conn with catching_tuple := conn.catching_set },
       .error (.invalidError "Invalid type given; Not inherited from Exception."))

/-- `AbstractConnection.removeExceptionsForToleration` (base.py lines
170-185): the same `isinstance` guard (raising `InvalidTypeError`), then a
guard refusing to remove a default-catching entry (raising
`InvalidError`), then removal of entries present in the set.  After the
loop the tuple is re-synced from the set. -/
def AbstractConnection.removeExceptionsForToleration (conn : AbstractConnection) :
    List PyObj → AbstractConnection × Except PyError Unit
  | [] => ({ conn with catching_tuple := conn.catching_set }, .ok ())
  | givenError :: rest =>
    match givenError with
    | .excInstance _ =>
      if givenError ∈ defaultCatching then
        ({ conn with catching_tuple := conn.catching_set },
         .error (.invalidError "Tried to remove default-catching Exceptions"))
      else
        let conn1 :=
          if givenError ∈ conn.catching_set then
            { conn with catching_set := conn.catching_set.erase givenError }
          else conn
        conn1.removeExceptionsForToleration rest
    | _ =>
      ({ conn with catching_tuple := conn.catching_set },
       .error (.invalidTypeError "Invalid type given; Not inherited from Exception."))

/-! ### Concrete states used by the scenario evaluations and witnesses -/

/-- The record registered by scenario A: `("default", interval=60s, capacity=10)`. -/
def fieldDefault : CallField :=
  { time_interval := 60, max_weight := 10, current_weight := 0,
    reserved_weight := 0, oldest_timestamp := datetimeMin, history := [] }

/-- A freshly constructed connection with no fields. -/
def conn0 : AbstractConnection := mkConnection "test"

/-- `conn0` after registering the scenario-A field. -/
def connA : AbstractConnection :=
  { conn0 with callLimits := [("default", fieldDefault)] }

/-! ### Claims about the admission gate -/

/-- C1: the admission gate is claimed, for a registered field and positive
weight, to refresh on staleness and return the boolean
`current_weight + reserved_weight + weight <= max_weight`, admitting a
first weight-10 call on the scenario-A field.  The code instead raises
`KeyError` at that very input: registration stores the key
`"oldest_timestamp"`, while line 149 reads `"oldest_time"`, so the check
never reaches the comparison.  This evaluates the embedded code at the
scenario-A input. -/
theorem isPossibleCall_admission_raises_keyError :
    conn0.addCallField "default" (.num 60) (.num 10) = .ok connA ∧
    connA.isPossibleCall (some "default") 10 0 =
      .error (.keyError "oldest_time") := by
  constructor
  · rfl
  · rfl

/-- C2: for every connection state, registered non-empty field name and
strictly positive weight, `isPossibleCall` fails with
`KeyError "oldest_time"` — the staleness test reads a key that
registration never stores — instead of returning a boolean. -/
theorem isPossibleCall_positive_weight_always_keyError
    (conn : AbstractConnection) (nm : String) (f : CallField) (weight now : ℚ)
    (hreg : conn.callLimits.lookup nm = some f) (hname : nm ≠ "")
    (hw : 0 < weight) :
    conn.isPossibleCall (some nm) weight now =
      .error (.keyError "oldest_time") := by
  have h0 : ¬ weight = 0 := ne_of_gt hw
  have h1 : ¬ weight < 0 := not_lt.mpr hw.le
  simp [AbstractConnection.isPossibleCall, pyFalsy, hname, hreg, h0, h1,
    CallField.timeItem]

/-- Witness for C2 at the scenario-A state with weight 10. -/
theorem isPossibleCall_positive_weight_always_keyError_witness :
    connA.callLimits.lookup "default" = some fieldDefault ∧
    "default" ≠ "" ∧ (0 : ℚ) < 10 ∧
    connA.isPossibleCall (some "default") 10 0 =
      .error (.keyError "oldest_time") :=
  ⟨rfl, by decide, by decide,
    isPossibleCall_positive_weight_always_keyError connA "default"
      fieldDefault 10 0 rfl (by decide) (by decide)⟩

/-- C9: the edge cases of `isPossibleCall`: a `None` or empty field name is
always possible regardless of weight; a non-empty unregistered name raises
`InvalidError` regardless of weight, including zero; zero weight against a
registered name is possible; negative weight against a registered name
raises `InvalidError`. -/
theorem isPossibleCall_edge_cases
    (conn : AbstractConnection) (nm : String) (f : CallField)
    (weight now : ℚ) :
    (conn.isPossibleCall none weight now = .ok (conn, true)) ∧
    (conn.isPossibleCall (some "") weight now = .ok (conn, true)) ∧
    (nm ≠ "" → conn.callLimits.lookup nm = none →
      conn.isPossibleCall (some nm) weight now =
        .error (.invalidError "Given callFieldName is not exist")) ∧
    (nm ≠ "" → conn.callLimits.lookup nm = some f →
      conn.isPossibleCall (some nm) 0 now = .ok (conn, true)) ∧
    (nm ≠ "" → conn.callLimits.lookup nm = some f → weight < 0 →
      conn.isPossibleCall (some nm) weight now =
        .error (.invalidError "Given weight is negative")) := by
  refine ⟨rfl, rfl, ?_, ?_, ?_⟩
  · intro hname hnone
    simp [AbstractConnection.isPossibleCall, pyFalsy, hname, hnone]
  · intro hname hreg
    simp [AbstractConnection.isPossibleCall, pyFalsy, hname, hreg]
  · intro hname hreg hneg
    have h0 : ¬ weight = 0 := ne_of_lt hneg
    simp [AbstractConnection.isPossibleCall, pyFalsy, hname, hreg, h0, hneg]

/-- Witness for C9: each edge case applied at a concrete input on the
scenario-A connection. -/
theorem isPossibleCall_edge_cases_witness :
    (connA.isPossibleCall none 5 0 = .ok (connA, true)) ∧
    (connA.isPossibleCall (some "") 5 0 = .ok (connA, true)) ∧
    (connA.isPossibleCall (some "missing") 0 0 =
      .error (.invalidError "Given callFieldName is not exist")) ∧
    (connA.isPossibleCall (some "default") 0 0 = .ok (connA, true)) ∧
    (connA.isPossibleCall (some "default") (-1) 0 =
      .error (.invalidError "Given weight is negative")) :=
  ⟨(isPossibleCall_edge_cases connA "missing" fieldDefault 5 0).1,
   (isPossibleCall_edge_cases connA "missing" fieldDefault 5 0).2.1,
   (isPossibleCall_edge_cases connA "missing" fieldDefault 0 0).2.2.1
     (by decide) rfl,
   (isPossibleCall_edge_cases connA "default" fieldDefault 0 0).2.2.2.1
     (by decide) rfl,
   (isPossibleCall_edge_cases connA "default" fieldDefault (-1) 0).2.2.2.2
     (by decide) rfl (by decide)⟩

/-! ### Registration -/

/-- A numeric argument that is present and strictly positive. -/
def PyNum.isPositiveNum : PyNum → Bool
  | .num q => decide (0 < q)
  | .notNum => false

/-- C7: `addCallField` inserts a fresh record — empty history, zero
committed and reserved weight, unset oldest timestamp — exactly when the
name is non-empty and unregistered and both numeric arguments are numeric
and strictly positive; in every other case it fails with `InvalidError`,
leaving the registry unchanged. -/
theorem addCallField_spec (conn : AbstractConnection) (nm : String)
    (ti mw : ℚ) (tiv mwv : PyNum) :
    (nm ≠ "" → conn.callLimits.lookup nm = none → 0 < ti → 0 < mw →
      conn.addCallField nm (.num ti) (.num mw) =
        .ok { conn with callLimits := conn.callLimits ++
          [(nm, { time_interval := ti, max_weight := mw, current_weight := 0,
                  reserved_weight := 0, oldest_timestamp := datetimeMin,
                  history := [] })] }) ∧
    (¬ (nm ≠ "" ∧ conn.callLimits.lookup nm = none ∧
        tiv.isPositiveNum = true ∧ mwv.isPositiveNum = true) →
      ∃ m, conn.addCallField nm tiv mwv = .error (.invalidError m)) := by
  constructor
  · intro hname hnone hti hmw
    simp [AbstractConnection.addCallField, hname, hnone, hti, hmw,
      not_lt.mpr hti.le, not_lt.mpr hmw.le]
  · intro hbad
    by_cases hname : nm = ""
    · exact ⟨"Empty string cannot be call field name",
        by simp [AbstractConnection.addCallField, hname]⟩
    · by_cases hdup : (conn.callLimits.lookup nm).isSome
      · exact ⟨"Already same callFieldName exist",
          by simp [AbstractConnection.addCallField, hname, hdup]⟩
      · have hnone : conn.callLimits.lookup nm = none :=
          Option.not_isSome_iff_eq_none.mp hdup
        match mwv with
        | .notNum =>
          exact ⟨"Given maxWeight argument is invalid",
            by simp [AbstractConnection.addCallField, hname, hdup]⟩
        | .num mwq =>
          by_cases hmw : 0 < mwq
          · match tiv with
            | .notNum =>
              exact ⟨"Given timeInterval argument is invalid",
                by simp [AbstractConnection.addCallField, hname, hdup, hmw]⟩
            | .num tiq =>
              by_cases hti : 0 < tiq
              · exact absurd ⟨hname, hnone, by simp [PyNum.isPositiveNum, hti],
                  by simp [PyNum.isPositiveNum, hmw]⟩ hbad
              · exact ⟨"Given timeInterval argument is invalid",
                  by simp [AbstractConnection.addCallField, hname, hdup,
                    hmw, hti]⟩
          · exact ⟨"Given maxWeight argument is invalid",
              by simp [AbstractConnection.addCallField, hname, hdup, hmw]⟩

/-- Witness for C7: a successful registration on the fresh connection and
a rejected registration with an empty name. -/
theorem addCallField_spec_witness :
    (conn0.addCallField "default" (.num 60) (.num 10) =
      .ok { conn0 with callLimits := conn0.callLimits ++
        [("default",
          { time_interval := 60, max_weight := 10, current_weight := 0,
            reserved_weight := 0, oldest_timestamp := datetimeMin,
            history := [] })] }) ∧
    (∃ m, conn0.addCallField "" (.num 60) (.num 10) =
      .error (.invalidError m)) :=
  ⟨(addCallField_spec conn0 "default" 60 10 (.num 60) (.num 10)).1
      (by decide) rfl (by decide) (by decide),
   (addCallField_spec conn0 "" 60 10 (.num 60) (.num 10)).2
      (by simp)⟩

/-! ### Window eviction -/

/-- The eviction loop characterized: on a history sorted by strictly
ascending timestamp it keeps exactly the entries inside the window,
subtracts the weights of the evicted entries from the running weight, and
reports the surviving head timestamp (`datetimeMin` when it drains). -/
theorem refreshLoop_eq (now interval : ℚ) (l : List (ℚ × ℚ)) (cw : ℚ)
    (hsort : l.Pairwise (fun a b => a.1 < b.1)) :
    refreshLoop now interval l cw =
      (l.filter (fun e => decide (now - interval < e.1)),
       cw - sumWeights (l.filter (fun e => decide (e.1 ≤ now - interval))),
       headTimestamp (l.filter (fun e => decide (now - interval < e.1)))) := by
  induction l generalizing cw with
  | nil => simp [refreshLoop, sumWeights, headTimestamp]
  | cons e rest ih =>
    obtain ⟨ts, w⟩ := e
    rw [List.pairwise_cons] at hsort
    by_cases h : now - interval < ts
    · have hkeep : rest.filter (fun e => decide (now - interval < e.1)) = rest :=
        List.filter_eq_self.mpr fun b hb => by
          simpa using h.trans (hsort.1 b hb)
      have hev : rest.filter (fun e => decide (e.1 ≤ now - interval)) = [] :=
        List.filter_eq_nil_iff.mpr fun b hb => by
          simpa using not_le.mpr (h.trans (hsort.1 b hb))
      have hne : ¬ ts ≤ now - interval := not_le.mpr h
      simp [refreshLoop, h, List.filter_cons, hkeep, hev, hne, sumWeights,
        headTimestamp]
    · have hts : ts ≤ now - interval := not_lt.mp h
      simp only [refreshLoop, if_neg h]
      rw [ih (cw - w) hsort.2]
      simp [List.filter_cons, h, hts, sumWeights, sub_sub]

/-- History component of a refresh, on a sorted history. -/
theorem refresh_history_eq (f : CallField) (now : ℚ)
    (hsort : f.history.Pairwise (fun a b => a.1 < b.1)) :
    (f.refresh now).history =
      f.history.filter (fun e => decide (now - f.time_interval < e.1)) := by
  simp [CallField.refresh,
    refreshLoop_eq now f.time_interval f.history f.current_weight hsort]

/-- Current-weight component of a refresh, on a sorted history. -/
theorem refresh_cw_eq (f : CallField) (now : ℚ)
    (hsort : f.history.Pairwise (fun a b => a.1 < b.1)) :
    (f.refresh now).current_weight = f.current_weight -
      sumWeights (f.history.filter
        (fun e => decide (e.1 ≤ now - f.time_interval))) := by
  simp [CallField.refresh,
    refreshLoop_eq now f.time_interval f.history f.current_weight hsort]

/-- Oldest-timestamp component of a refresh, on a sorted history. -/
theorem refresh_old_eq (f : CallField) (now : ℚ)
    (hsort : f.history.Pairwise (fun a b => a.1 < b.1)) :
    (f.refresh now).oldest_timestamp =
      headTimestamp (f.history.filter
        (fun e => decide (now - f.time_interval < e.1))) := by
  simp [CallField.refresh,
    refreshLoop_eq now f.time_interval f.history f.current_weight hsort]

/-- C6: one refresh at time `now` on a field whose history has strictly
ascending timestamps (all above the sentinel) evicts exactly the entries
with `timestamp <= now - time_interval`, decreases `current_weight` by
exactly their summed weight, sets `oldest_timestamp` to the oldest
surviving timestamp, equals the sentinel exactly when the history is
emptied, and a second refresh at the same instant leaves `current_weight`
unchanged. -/
theorem refresh_window_correct (f : CallField) (now : ℚ)
    (hsort : f.history.Pairwise (fun a b => a.1 < b.1))
    (hpos : ∀ e ∈ f.history, datetimeMin < e.1) :
    ((f.refresh now).history =
      f.history.filter (fun e => decide (now - f.time_interval < e.1))) ∧
    ((f.refresh now).current_weight = f.current_weight -
      sumWeights (f.history.filter
        (fun e => decide (e.1 ≤ now - f.time_interval)))) ∧
    ((f.refresh now).oldest_timestamp =
      headTimestamp (f.refresh now).history) ∧
    ((f.refresh now).oldest_timestamp = datetimeMin ↔
      (f.refresh now).history = []) ∧
    (((f.refresh now).refresh now).current_weight =
      (f.refresh now).current_weight) := by
  have hh := refresh_history_eq f now hsort
  have hcw := refresh_cw_eq f now hsort
  have hold : (f.refresh now).oldest_timestamp =
      headTimestamp (f.refresh now).history := by
    rw [refresh_old_eq f now hsort, hh]
  refine ⟨hh, hcw, hold, ?_, ?_⟩
  · rw [hold, hh]
    cases hc : f.history.filter
        (fun e => decide (now - f.time_interval < e.1)) with
    | nil => simp [headTimestamp]
    | cons e rest =>
      have he : e ∈ f.history :=
        (List.mem_filter.mp (hc ▸ List.mem_cons_self e rest)).1
      simp [headTimestamp, (hpos e he).ne']
  · have hsort1 : ((f.refresh now).history).Pairwise
        (fun a b => a.1 < b.1) := by
      rw [hh]; exact hsort.sublist (List.filter_sublist _)
    have hti : (f.refresh now).time_interval = f.time_interval := rfl
    have hnil : ((f.refresh now).history).filter
        (fun e => decide (e.1 ≤ now - f.time_interval)) = [] := by
      rw [hh]
      refine List.filter_eq_nil_iff.mpr ?_
      intro b hb
      have hbk := (List.mem_filter.mp hb).2
      simp only [decide_eq_true_eq] at hbk ⊢
      exact not_le.mpr hbk
    rw [refresh_cw_eq (f.refresh now) now hsort1, hti, hnil]
    simp [sumWeights]

/-- A concrete field for the C6 witness: interval 60, two history entries
at times 5 and 100. -/
def fieldW : CallField :=
  { time_interval := 60, max_weight := 10, current_weight := 7,
    reserved_weight := 0, oldest_timestamp := 5, history := [(5, 3), (100, 4)] }

/-- Witness for C6: refreshing `fieldW` at time 100 evicts the entry at
time 5, leaving weight 4 and the single entry at time 100. -/
theorem refresh_window_correct_witness :
    List.Pairwise (fun a b => a.1 < b.1) fieldW.history ∧
    (∀ e ∈ fieldW.history, datetimeMin < e.1) ∧
    (fieldW.refresh 100).current_weight = 4 ∧
    (fieldW.refresh 100).history = [(100, 4)] := by
  refine ⟨by decide, by decide, ?_, ?_⟩
  · have h := refresh_window_correct fieldW 100 (by decide) (by decide)
    rw [h.2.1]
    norm_num [fieldW, sumWeights]
  · have h := refresh_window_correct fieldW 100 (by decide) (by decide)
    rw [h.1]
    norm_num [fieldW]

/-! ### The call envelopes -/

/-- C3 (scenario B evaluated on the code): the first weight-10 call with a
tolerated failure is claimed to be admitted, rolled back, and re-raised,
after which an immediate weight-10 re-issue is admitted.  The code instead
raises `KeyError "oldest_time"` at the admission check of the first call —
the operation is never run and the state is unchanged, so the re-issued
call (the same expression on the same state) again raises `KeyError`
rather than being admitted.  The settlement stage of `_makeCallSync` in
isolation (second conjunct) does roll back exactly as claimed. -/
theorem makeCallSync_tolerated_failure_keyError :
    (makeCallSync connA (some "default") 10 0
        (OpOutcome.raise (α := Unit) .autoTradeConnectionError) =
      (connA, .error (.keyError "oldest_time"))) ∧
    (settleSync defaultCatching { fieldDefault with reserved_weight := 10 }
        10 0 (OpOutcome.raise (α := Unit) .autoTradeConnectionError) =
      (fieldDefault, .error (.raised .autoTradeConnectionError))) := by
  constructor
  · rfl
  · simp [settleSync, caughtBy, defaultCatching, fieldDefault]

/-- C4 (scenario C evaluated on the code): the weight-10 call with a
non-tolerated failure is claimed to commit (history entry, current weight
10) and re-raise, after which a weight-1 call is rejected with the
quota-exceeded error.  The code instead raises `KeyError "oldest_time"` at
the admission check of the first call, leaving the state unchanged with
`current_weight` 0; the weight-1 re-issue also raises `KeyError`, not
`CallLimitExceededError`.  The settlement stage in isolation (last
conjunct) does commit exactly as claimed. -/
theorem makeCallSync_counted_failure_keyError :
    (makeCallSync connA (some "default") 10 0
        (OpOutcome.raise (α := Unit) (.other 1)) =
      (connA, .error (.keyError "oldest_time"))) ∧
    (makeCallSync connA (some "default") 1 0 (OpOutcome.ok ()) =
      (connA, .error (.keyError "oldest_time"))) ∧
    (settleSync defaultCatching { fieldDefault with reserved_weight := 10 }
        10 0 (OpOutcome.raise (α := Unit) (.other 1)) =
      ({ fieldDefault with
          current_weight := 10, reserved_weight := 0, history := [(0, 10)] },
        .error (.raised (.other 1)))) := by
  refine ⟨rfl, rfl, ?_⟩
  simp [settleSync, caughtBy, defaultCatching, commitField, pqPut, fieldDefault]

/-- C5: a denied guarded call is claimed to raise
`CallLimitExceededError(connectionName, fieldName)` with the operation
never invoked.  In the code the admission check can never return `false`
at all — every positive-weight check dies with `KeyError "oldest_time"`
first (second conjunct: every `ok` verdict of `isPossibleCall` is `true`)
— so an over-capacity call (weight 11 on the fresh capacity-10 field,
first conjunct) raises `KeyError`, not the quota-exceeded error, and the
`CallLimitExceededError` branch of the envelope is unreachable. -/
theorem quota_denial_unreachable :
    (makeCallSync connA (some "default") 11 0 (OpOutcome.ok (42 : Nat)) =
      (connA, .error (.keyError "oldest_time"))) ∧
    (∀ (conn conn1 : AbstractConnection) (nm : Option String) (w now : ℚ)
        (b : Bool),
      conn.isPossibleCall nm w now = .ok (conn1, b) → b = true) := by
  constructor
  · rfl
  · intro conn conn1 nm w now b h
    simp only [AbstractConnection.isPossibleCall] at h
    by_cases hf : pyFalsy nm
    · rw [if_pos hf] at h
      injection h with h2
      injection h2 with _ hb
      exact hb.symm
    · rw [if_neg hf] at h
      cases hl : conn.callLimits.lookup (nm.getD "") with
      | none => simp [hl] at h
      | some f =>
        simp only [hl] at h
        by_cases h0 : w = 0
        · rw [if_pos h0] at h
          injection h with h2
          injection h2 with _ hb
          exact hb.symm
        · rw [if_neg h0] at h
          by_cases h1 : w < 0
          · rw [if_pos h1] at h; cases h
          · rw [if_neg h1] at h
            simp [CallField.timeItem] at h

/-- Witness for C5's universally quantified conjunct, applied at a
concrete admission check. -/
theorem quota_denial_unreachable_witness :
    connA.isPossibleCall none 5 0 = .ok (connA, true) ∧ true = true :=
  ⟨rfl, quota_denial_unreachable.2 connA connA none 5 0 true rfl⟩

/-- C8: the two envelopes are claimed to produce identical accounting for
every operation outcome.  Their settlement stages differ: line 259 of
`_makeCallAsync` creates the coroutine without `await`, so the try-body
never raises, and a tolerated (default connection-error) failure is
committed — history entry added, `current_weight` raised to 10 — instead
of rolled back as `_makeCallSync` does, with the caller receiving the
un-awaited coroutine instead of the re-raised error.  (End to end the
divergence is masked only by the admission `KeyError`, which kills every
positive-weight call in both envelopes before settlement.) -/
theorem async_settlement_differs_from_sync :
    (settleSync defaultCatching { fieldDefault with reserved_weight := 10 }
        10 5 (OpOutcome.raise (α := Nat) .autoTradeConnectionError) =
      (fieldDefault, .error (.raised .autoTradeConnectionError))) ∧
    (settleAsync defaultCatching { fieldDefault with reserved_weight := 10 }
        10 5 (OpOutcome.raise (α := Nat) .autoTradeConnectionError) =
      ({ fieldDefault with
          current_weight := 10, reserved_weight := 0, history := [(5, 10)] },
        .ok (.pendingCoroutine (OpOutcome.raise .autoTradeConnectionError)))) ∧
    ((settleSync defaultCatching { fieldDefault with reserved_weight := 10 }
        10 5 (OpOutcome.raise (α := Nat) .autoTradeConnectionError)).1.current_weight ≠
      (settleAsync defaultCatching { fieldDefault with reserved_weight := 10 }
        10 5 (OpOutcome.raise (α := Nat) .autoTradeConnectionError)).1.current_weight) := by
  refine ⟨?_, ?_, ?_⟩
  · simp [settleSync, caughtBy, defaultCatching, fieldDefault]
  · simp [settleAsync, commitField, pqPut, fieldDefault]
  · simp [settleSync, settleAsync, caughtBy, defaultCatching, commitField,
      pqPut, fieldDefault]

/-! ### Toleration configuration -/

/-- C10: the toleration add/remove operations are claimed to accept
exception classes (kinds).  `isinstance(givenError, Exception)` is false
for every class — a class is an instance of `type` — so the code rejects
exactly the values the claim admits: adding any exception class raises
`InvalidError` (first conjunct), and removing the default-tolerated class
raises `InvalidTypeError` from the same guard, never reaching the
documented default-kind check (second conjunct).  Exception *instances*,
which the `except`-clause machinery cannot use, are accepted into the set
instead (third conjunct). -/
theorem toleration_ops_reject_exception_classes :
    (connA.addExceptionsForToleration [PyObj.excClass (.other 3)] =
      (connA, .error (.invalidError
        "Invalid type given; Not inherited from Exception."))) ∧
    (connA.removeExceptionsForToleration
        [PyObj.excClass .autoTradeConnectionError] =
      (connA, .error (.invalidTypeError
        "Invalid type given; Not inherited from Exception."))) ∧
    (connA.addExceptionsForToleration [PyObj.excInstance (.other 3)] =
      ({ connA with
          catching_set := defaultCatching ++ [PyObj.excInstance (.other 3)],
          catching_tuple := defaultCatching ++ [PyObj.excInstance (.other 3)] },
       .ok ())) := by
  refine ⟨rfl, rfl, rfl⟩
